import Mathlib

/-!
Shallow embedding of the mark-keaton/nes-emulator 6502 interpreter core
(src/cpu.rs, src/cpu/memory.rs, src/cpu/processor_status.rs,
src/cpu/opscodes/*.rs, src/util/u8_ext.rs).

Machine bytes and addresses are modelled as `Nat` with explicit `% 256`
and `% 65536` where the Rust code wraps.  Rust code that can panic
(array indexing out of bounds, unsupported addressing mode) is modelled
with `Option`: `none` is a panic.
-/

set_option maxRecDepth 8000

namespace NES

/-- Length of the backing array of the Rust `Memory` struct, which is
declared as `Memory(pub [u8; 0xFFFF])` in src/cpu/memory.rs: 0xFFFF =
65535 elements, so the valid indices are 0 .. 0xFFFE. -/
def MEM_SIZE : Nat := 0xFFFF

/-- Model of `Memory(pub [u8; 0xFFFF])`: the backing store is a function
from index to byte value.  Indices at or above `MEM_SIZE` are never
readable or writable (the Rust indexing would panic there), so the
function's values there are irrelevant. -/
structure Memory where
  data : Nat → Nat

/-- Model of `Memory::read`: `self.0[addr as usize]`.  Rust array
indexing panics when the index is not below the array length, hence
`none` exactly when `MEM_SIZE ≤ addr`.  The `% 256` records that the
array elements have type `u8`. -/
def Memory.read (m : Memory) (addr : Nat) : Option Nat :=
  if addr < MEM_SIZE then some (m.data addr % 256) else none

/-- Model of `Memory::write`: `self.0[addr as usize] = data`. -/
def Memory.write (m : Memory) (addr data : Nat) : Option Memory :=
  if addr < MEM_SIZE then
    some ⟨fun a => if a = addr then data % 256 else m.data a⟩
  else none

/-- Model of `Memory::read_u16`: low byte at `addr`, high byte at
`addr.wrapping_add(1)`, combined little-endian by `u16::from_le_bytes`. -/
def Memory.read_u16 (m : Memory) (addr : Nat) : Option Nat := do
  let lo ← m.read addr
  let hi ← m.read ((addr + 1) % 65536)
  some (256 * hi + lo)

/-- Model of `Memory::write_u16`: `to_le_bytes` splits a `u16` into low
byte `data % 256` and high byte `data / 256`, written at `addr` and
`addr.wrapping_add(1)`. -/
def Memory.write_u16 (m : Memory) (addr data : Nat) : Option Memory := do
  let m1 ← m.write addr (data % 256)
  m1.write ((addr + 1) % 65536) (data / 256 % 256)

/-- Model of `Memory::load_program`:
`self.0[0x8000..(0x8000 + program.len())].copy_from_slice(&program[..])`.
Rust range slicing of the backing array panics when the end of the range
exceeds the array length `MEM_SIZE`, hence `none` exactly when
`MEM_SIZE < 0x8000 + program.length`. -/
def Memory.load_program (m : Memory) (program : List Nat) : Option Memory :=
  if 0x8000 + program.length ≤ MEM_SIZE then
    some ⟨fun a =>
      if 0x8000 ≤ a ∧ a < 0x8000 + program.length then
        program.getD (a - 0x8000) 0 % 256
      else m.data a⟩
  else none

/-- Model of `Memory::push_to_stack`: `self.0[(0x0100 + sp as u16) as usize] = data`.
For `sp : u8` the index `0x0100 + sp ≤ 0x01FF` is always in bounds. -/
def Memory.push_to_stack (m : Memory) (sp data : Nat) : Memory :=
  ⟨fun a => if a = 0x0100 + sp then data % 256 else m.data a⟩

/-- Model of `BitwiseU8::bit_0_is_set` from src/util/u8_ext.rs. -/
def bit_0_is_set (v : Nat) : Bool := v &&& 0x01 != 0

/-- Model of `BitwiseU8::bit_6_is_set` from src/util/u8_ext.rs. -/
def bit_6_is_set (v : Nat) : Bool := v &&& 0x40 != 0

/-- Model of `BitwiseU8::bit_7_is_set` from src/util/u8_ext.rs. -/
def bit_7_is_set (v : Nat) : Bool := v &&& 0x80 != 0

/-- Model of `ProcessorStatus::set_carry_flag` (bit 0): `set_bit_at(0)` ors
with `0b0000_0001`, `unset_bit_at(0)` ands with `0b1111_1110`. -/
def set_carry_flag (p : Nat) (state : Bool) : Nat :=
  if state then p ||| 0x01 else p &&& 0xFE

/-- Model of `ProcessorStatus::set_zero_flag` (bit 1). -/
def set_zero_flag (p : Nat) (state : Bool) : Nat :=
  if state then p ||| 0x02 else p &&& 0xFD

/-- Model of `ProcessorStatus::set_overflow_flag` (bit 6). -/
def set_overflow_flag (p : Nat) (state : Bool) : Nat :=
  if state then p ||| 0x40 else p &&& 0xBF

/-- Model of `ProcessorStatus::set_negative_flag` (bit 7). -/
def set_negative_flag (p : Nat) (state : Bool) : Nat :=
  if state then p ||| 0x80 else p &&& 0x7F

/-- Model of `ProcessorStatus::get_carry_flag`: `bit_0_is_set() as u8`. -/
def get_carry_flag (p : Nat) : Nat :=
  if p &&& 0x01 != 0 then 1 else 0

/-- Model of `ProcessorStatus::get_zero_flag`: `bit_1_is_set() as u8`. -/
def get_zero_flag (p : Nat) : Nat :=
  if p &&& 0x02 != 0 then 1 else 0

/-- Model of `ProcessorStatus::get_overflow_flag`: `bit_6_is_set() as u8`. -/
def get_overflow_flag (p : Nat) : Nat :=
  if p &&& 0x40 != 0 then 1 else 0

/-- Model of `ProcessorStatus::get_negative_flag`: `bit_7_is_set() as u8`. -/
def get_negative_flag (p : Nat) : Nat :=
  if p &&& 0x80 != 0 then 1 else 0

/-- Addressing modes.  The enum in src/cpu/opscodes/addressing_mode.rs has
the variants Accumulator, Immediate, ZeroPage, ZeroPage_X, ZeroPage_Y,
Absolute, Absolute_X, Absolute_Y, Indirect_X, Indirect_Y, NoneAddressing.
`Relative` is modelled from the spec: src/cpu.rs pattern-matches on
`AddressingMode::Relative` for the branch opcodes and the spec's
addressing-mode tag list contains `Relative`, but the variant is missing
from the enum file present in the snapshot. -/
inductive AddressingMode where
  | Accumulator
  | Immediate
  | ZeroPage
  | ZeroPage_X
  | ZeroPage_Y
  | Absolute
  | Absolute_X
  | Absolute_Y
  | Indirect_X
  | Indirect_Y
  | Relative
  | NoneAddressing
deriving DecidableEq

/-- Model of the `CPU` struct from src/cpu.rs.  Registers are `u8`
values, the program counter a `u16` value. -/
structure CPU where
  register_a : Nat
  register_s : Nat
  register_x : Nat
  register_y : Nat
  status : Nat
  program_counter : Nat
  memory : Memory

/-- Type invariant of the Rust `CPU` struct: all registers hold `u8`
values and the program counter a `u16` value. -/
def CPU.WF (cpu : CPU) : Prop :=
  cpu.register_a < 256 ∧ cpu.register_s < 256 ∧ cpu.register_x < 256 ∧
  cpu.register_y < 256 ∧ cpu.status < 256 ∧ cpu.program_counter < 65536

instance (cpu : CPU) : Decidable cpu.WF := by
  unfold CPU.WF
  infer_instance

/-- Model of `AddressingMode::get_operand_address` from
src/cpu/opscodes/addressing_mode.rs.  `u8::wrapping_add` is `% 256`,
`u16::wrapping_add` is `% 65536`, `(hi as u16) << 8 | (lo as u16)` is
`(hi <<< 8) ||| lo`.  The `Relative` arm is modelled from the spec:
the effective address of a relative operand is the program counter (the
address of the displacement byte); the branch handlers in
src/cpu/opscodes/control_flow.rs call the resolver with that mode.  The
catch-all arm panics in the source (`panic!("mode ... not supported")`),
hence `none`. -/
def get_operand_address (cpu : CPU) (mode : AddressingMode) : Option Nat :=
  match mode with
  | .Immediate => some cpu.program_counter
  | .ZeroPage => cpu.memory.read cpu.program_counter
  | .Absolute => cpu.memory.read_u16 cpu.program_counter
  | .ZeroPage_X => do
      let pos ← cpu.memory.read cpu.program_counter
      some ((pos + cpu.register_x) % 256)
  | .ZeroPage_Y => do
      let pos ← cpu.memory.read cpu.program_counter
      some ((pos + cpu.register_y) % 256)
  | .Absolute_X => do
      let base ← cpu.memory.read_u16 cpu.program_counter
      some ((base + cpu.register_x) % 65536)
  | .Absolute_Y => do
      let base ← cpu.memory.read_u16 cpu.program_counter
      some ((base + cpu.register_y) % 65536)
  | .Indirect_X => do
      let base ← cpu.memory.read cpu.program_counter
      let ptr := (base + cpu.register_x) % 256
      let lo ← cpu.memory.read ptr
      let hi ← cpu.memory.read ((ptr + 1) % 256)
      some ((hi <<< 8) ||| lo)
  | .Indirect_Y => do
      let base ← cpu.memory.read cpu.program_counter
      let lo ← cpu.memory.read base
      let hi ← cpu.memory.read ((base + 1) % 256)
      let deref_base := (hi <<< 8) ||| lo
      some ((deref_base + cpu.register_y) % 65536)
  | .Relative => some cpu.program_counter
  | _ => none

/-- Model of `update_zero_and_negative_flags` (identical private helper in
src/cpu/opscodes/arithmetic_logic.rs and src/cpu/opscodes/registers.rs):
zero flag from `value.is_zero()`, then negative flag from
`value.bit_7_is_set()`. -/
def update_zero_and_negative_flags (p : Nat) (value : Nat) : Nat :=
  set_negative_flag (set_zero_flag p (value == 0)) (bit_7_is_set value)

/-- Model of `update_carry_zero_and_negative_flags` (private helper in
src/cpu/opscodes/registers.rs): carry from `register >= comparator`,
zero from `register == comparator`, negative from bit 7 of
`register.wrapping_sub(comparator)`. -/
def update_carry_zero_and_negative_flags (p : Nat) (comparator register : Nat) : Nat :=
  let result := (register + 256 - comparator) % 256
  set_negative_flag
    (set_zero_flag (set_carry_flag p (decide (comparator ≤ register)))
      (register == comparator))
    (bit_7_is_set result)

/-- Model of `arithmetic_logic::adc`.  `(a as u16) + (param as u16) +
(carry as u16)` with `u16::wrapping_add` is `% 65536`; `(temp & 0xFF) as u8`
is `&&& 0xFF`. -/
def adc (cpu : CPU) (mode : AddressingMode) : Option CPU := do
  let addr ← get_operand_address cpu mode
  let carry_value := get_carry_flag cpu.status
  let param ← cpu.memory.read addr
  let temp := (cpu.register_a + param + carry_value) % 65536
  let result := temp &&& 0xFF
  let st := set_carry_flag cpu.status (decide (0xFF < temp))
  let st := set_zero_flag st (result == 0)
  let st := set_overflow_flag st
    (((cpu.register_a ^^^ result) &&& (param ^^^ result) &&& 0x80) != 0)
  let st := set_negative_flag st ((result &&& 0x80) != 0)
  some { cpu with register_a := result, status := st }

/-- Model of `arithmetic_logic::sbc`.  The chain of `u16::wrapping_sub`
computes `(a - param - carry) mod 65536`; adding `2 * 65536 = 131072`
before the truncated `Nat` subtractions keeps the minuend nonnegative
without changing the residue (`param < 256` and `carry ≤ 1`). -/
def sbc (cpu : CPU) (mode : AddressingMode) : Option CPU := do
  let addr ← get_operand_address cpu mode
  let carry_value := get_carry_flag cpu.status
  let param ← cpu.memory.read addr
  let temp := (cpu.register_a + 131072 - param - carry_value) % 65536
  let result := temp &&& 0xFF
  let st := set_carry_flag cpu.status (decide (temp ≤ 0xFF))
  let st := set_zero_flag st (result == 0)
  let st := set_overflow_flag st
    (decide ((cpu.register_a ^^^ param) &&& 0x80 = 0) &&
     decide ((cpu.register_a ^^^ result) &&& 0x80 ≠ 0))
  let st := set_negative_flag st ((result &&& 0x80) != 0)
  some { cpu with register_a := result, status := st }

/-- Model of `arithmetic_logic::and`. -/
def and (cpu : CPU) (mode : AddressingMode) : Option CPU := do
  let addr ← get_operand_address cpu mode
  let param ← cpu.memory.read addr
  let a := cpu.register_a &&& param
  some { cpu with register_a := a,
                  status := update_zero_and_negative_flags cpu.status a }

/-- Model of `arithmetic_logic::asl`.  The `u8` shift `value << 1`
truncates to 8 bits. -/
def asl (cpu : CPU) (mode : AddressingMode) : Option CPU :=
  match mode with
  | .Accumulator =>
    let value := cpu.register_a
    let bit7 := bit_7_is_set value
    let new_value := (value <<< 1) &&& 0xFF
    some { cpu with
           register_a := new_value,
           status := set_carry_flag (update_zero_and_negative_flags cpu.status new_value) bit7 }
  | _ => do
    let addr ← get_operand_address cpu mode
    let value ← cpu.memory.read addr
    let bit7 := bit_7_is_set value
    let new_value := (value <<< 1) &&& 0xFF
    let m ← cpu.memory.write addr new_value
    some { cpu with
           memory := m,
           status := set_carry_flag (update_zero_and_negative_flags cpu.status new_value) bit7 }

/-- Model of `arithmetic_logic::bit`. -/
def bit (cpu : CPU) (mode : AddressingMode) : Option CPU := do
  let addr ← get_operand_address cpu mode
  let param ← cpu.memory.read addr
  let result := cpu.register_a &&& param
  let st := set_zero_flag cpu.status (result == 0)
  let st := set_overflow_flag st (bit_6_is_set param)
  let st := set_negative_flag st (bit_7_is_set param)
  some { cpu with status := st }

/-- Model of `arithmetic_logic::cmp`.  `u8::wrapping_sub` is
`(a + 256 - param) % 256`; `a >= param` is `decide (param ≤ a)`. -/
def cmp (cpu : CPU) (mode : AddressingMode) : Option CPU := do
  let addr ← get_operand_address cpu mode
  let param ← cpu.memory.read addr
  let result := (cpu.register_a + 256 - param) % 256
  let st := set_carry_flag cpu.status (decide (param ≤ cpu.register_a))
  let st := set_zero_flag st (cpu.register_a == param)
  let st := set_negative_flag st (bit_7_is_set result)
  some { cpu with status := st }

/-- Model of `arithmetic_logic::dec`: memory decrement with wrap, then
zero and negative flags from the result. -/
def dec (cpu : CPU) (mode : AddressingMode) : Option CPU := do
  let addr ← get_operand_address cpu mode
  let param ← cpu.memory.read addr
  let result := (param + 255) % 256
  let m ← cpu.memory.write addr result
  let st := set_negative_flag (set_zero_flag cpu.status (result == 0)) (bit_7_is_set result)
  some { cpu with memory := m, status := st }

/-- Model of `arithmetic_logic::eor`. -/
def eor (cpu : CPU) (mode : AddressingMode) : Option CPU := do
  let addr ← get_operand_address cpu mode
  let param ← cpu.memory.read addr
  let a := cpu.register_a ^^^ param
  let st := set_negative_flag (set_zero_flag cpu.status (a == 0)) (bit_7_is_set a)
  some { cpu with register_a := a, status := st }

/-- Model of `arithmetic_logic::lsr`. -/
def lsr (cpu : CPU) (mode : AddressingMode) : Option CPU :=
  match mode with
  | .Accumulator =>
    let value := cpu.register_a
    let bit0 := bit_0_is_set value
    let new_value := value >>> 1
    some { cpu with
           register_a := new_value,
           status := set_carry_flag (update_zero_and_negative_flags cpu.status new_value) bit0 }
  | _ => do
    let addr ← get_operand_address cpu mode
    let value ← cpu.memory.read addr
    let bit0 := bit_0_is_set value
    let new_value := value >>> 1
    let m ← cpu.memory.write addr new_value
    some { cpu with
           memory := m,
           status := set_carry_flag (update_zero_and_negative_flags cpu.status new_value) bit0 }

/-- Model of `arithmetic_logic::ora`. -/
def ora (cpu : CPU) (mode : AddressingMode) : Option CPU := do
  let addr ← get_operand_address cpu mode
  let param ← cpu.memory.read addr
  let a := cpu.register_a ||| param
  let st := set_negative_flag (set_zero_flag cpu.status (a == 0)) (bit_7_is_set a)
  some { cpu with register_a := a, status := st }

/-- Model of `arithmetic_logic::rol`: the carry flag is read before the
rotate, shifted into bit 0, and the old bit 7 becomes the new carry. -/
def rol (cpu : CPU) (mode : AddressingMode) : Option CPU :=
  let carry_flag := get_carry_flag cpu.status
  match mode with
  | .Accumulator =>
    let value := cpu.register_a
    let bit7 := bit_7_is_set value
    let new_value := ((value <<< 1) &&& 0xFF) ||| carry_flag
    some { cpu with
           register_a := new_value,
           status := set_carry_flag (update_zero_and_negative_flags cpu.status new_value) bit7 }
  | _ => do
    let addr ← get_operand_address cpu mode
    let value ← cpu.memory.read addr
    let bit7 := bit_7_is_set value
    let new_value := ((value <<< 1) &&& 0xFF) ||| carry_flag
    let m ← cpu.memory.write addr new_value
    some { cpu with
           memory := m,
           status := set_carry_flag (update_zero_and_negative_flags cpu.status new_value) bit7 }

/-- Model of `arithmetic_logic::ror`: the carry flag is read before the
rotate, shifted into bit 7, and the old bit 0 becomes the new carry. -/
def ror (cpu : CPU) (mode : AddressingMode) : Option CPU :=
  let carry_flag := get_carry_flag cpu.status
  match mode with
  | .Accumulator =>
    let value := cpu.register_a
    let bit0 := bit_0_is_set value
    let new_value := (value >>> 1) ||| (carry_flag <<< 7)
    some { cpu with
           register_a := new_value,
           status := set_carry_flag (update_zero_and_negative_flags cpu.status new_value) bit0 }
  | _ => do
    let addr ← get_operand_address cpu mode
    let value ← cpu.memory.read addr
    let bit0 := bit_0_is_set value
    let new_value := (value >>> 1) ||| (carry_flag <<< 7)
    let m ← cpu.memory.write addr new_value
    some { cpu with
           memory := m,
           status := set_carry_flag (update_zero_and_negative_flags cpu.status new_value) bit0 }

/-- Model of `registers::cpx`. -/
def cpx (cpu : CPU) (mode : AddressingMode) : Option CPU := do
  let addr ← get_operand_address cpu mode
  let operand ← cpu.memory.read addr
  some { cpu with status :=
    update_carry_zero_and_negative_flags cpu.status operand cpu.register_x }

/-- Model of `registers::cpy`. -/
def cpy (cpu : CPU) (mode : AddressingMode) : Option CPU := do
  let addr ← get_operand_address cpu mode
  let operand ← cpu.memory.read addr
  some { cpu with status :=
    update_carry_zero_and_negative_flags cpu.status operand cpu.register_y }

/-- Model of `registers::dex`: `u8` decrement with wrap, flags from X. -/
def dex (cpu : CPU) : CPU :=
  let x := (cpu.register_x + 255) % 256
  { cpu with register_x := x, status := update_zero_and_negative_flags cpu.status x }

/-- Model of `registers::dey`. -/
def dey (cpu : CPU) : CPU :=
  let y := (cpu.register_y + 255) % 256
  { cpu with register_y := y, status := update_zero_and_negative_flags cpu.status y }

/-- Model of `registers::inc`. -/
def inc (cpu : CPU) (mode : AddressingMode) : Option CPU := do
  let addr ← get_operand_address cpu mode
  let param ← cpu.memory.read addr
  let result := (param + 1) % 256
  let m ← cpu.memory.write addr result
  some { cpu with memory := m,
                  status := update_zero_and_negative_flags cpu.status result }

/-- Model of `registers::inx`. -/
def inx (cpu : CPU) : CPU :=
  let x := (cpu.register_x + 1) % 256
  { cpu with register_x := x, status := update_zero_and_negative_flags cpu.status x }

/-- Model of `registers::iny`. -/
def iny (cpu : CPU) : CPU :=
  let y := (cpu.register_y + 1) % 256
  { cpu with register_y := y, status := update_zero_and_negative_flags cpu.status y }

/-- Model of `registers::lda`. -/
def lda (cpu : CPU) (mode : AddressingMode) : Option CPU := do
  let addr ← get_operand_address cpu mode
  let param ← cpu.memory.read addr
  some { cpu with register_a := param,
                  status := update_zero_and_negative_flags cpu.status param }

/-- Model of `registers::ldx`. -/
def ldx (cpu : CPU) (mode : AddressingMode) : Option CPU := do
  let addr ← get_operand_address cpu mode
  let param ← cpu.memory.read addr
  some { cpu with register_x := param,
                  status := update_zero_and_negative_flags cpu.status param }

/-- Model of `registers::ldy`. -/
def ldy (cpu : CPU) (mode : AddressingMode) : Option CPU := do
  let addr ← get_operand_address cpu mode
  let param ← cpu.memory.read addr
  some { cpu with register_y := param,
                  status := update_zero_and_negative_flags cpu.status param }

/-- Model of `registers::pha`: push A at `0x0100 + S`, then decrement S. -/
def pha (cpu : CPU) : CPU :=
  { cpu with memory := cpu.memory.push_to_stack cpu.register_s cpu.register_a,
             register_s := (cpu.register_s + 255) % 256 }

/-- Model of `registers::sta`: store without flag update. -/
def sta (cpu : CPU) (mode : AddressingMode) : Option CPU := do
  let addr ← get_operand_address cpu mode
  let m ← cpu.memory.write addr cpu.register_a
  some { cpu with memory := m }

/-- Model of `registers::stx`. -/
def stx (cpu : CPU) (mode : AddressingMode) : Option CPU := do
  let addr ← get_operand_address cpu mode
  let m ← cpu.memory.write addr cpu.register_x
  some { cpu with memory := m }

/-- Model of `registers::sty`. -/
def sty (cpu : CPU) (mode : AddressingMode) : Option CPU := do
  let addr ← get_operand_address cpu mode
  let m ← cpu.memory.write addr cpu.register_y
  some { cpu with memory := m }

/-- Model of `registers::tax`. -/
def tax (cpu : CPU) : CPU :=
  { cpu with register_x := cpu.register_a,
             status := update_zero_and_negative_flags cpu.status cpu.register_a }

/-- Model of `registers::tay`. -/
def tay (cpu : CPU) : CPU :=
  { cpu with register_y := cpu.register_a,
             status := update_zero_and_negative_flags cpu.status cpu.register_a }

/-- Model of `registers::tsx`. -/
def tsx (cpu : CPU) : CPU :=
  { cpu with register_x := cpu.register_s,
             status := update_zero_and_negative_flags cpu.status cpu.register_s }

/-- Model of `registers::txa`. -/
def txa (cpu : CPU) : CPU :=
  { cpu with register_a := cpu.register_x,
             status := update_zero_and_negative_flags cpu.status cpu.register_x }

/-- Model of `registers::txs`.  Note that the source calls
`update_zero_and_negative_flags(cpu, cpu.register_s.0)` after the copy. -/
def txs (cpu : CPU) : CPU :=
  { cpu with register_s := cpu.register_x,
             status := update_zero_and_negative_flags cpu.status cpu.register_x }

/-- Model of `registers::tya`. -/
def tya (cpu : CPU) : CPU :=
  { cpu with register_a := cpu.register_y,
             status := update_zero_and_negative_flags cpu.status cpu.register_y }

/-- Model of `status_register::clc`. -/
def clc (cpu : CPU) : CPU :=
  { cpu with status := set_carry_flag cpu.status false }

/-- Model of `status_register::sec`. -/
def sec (cpu : CPU) : CPU :=
  { cpu with status := set_carry_flag cpu.status true }

/-- Sign extension of a byte to 16 bits as a residue modulo 65536:
models `byte as i8 as i16` followed by a 16-bit wrapping add, since for
`b ≥ 128` the signed value `b - 256` is congruent to `b + 0xFF00`
modulo 65536. -/
def signExtend16 (b : Nat) : Nat :=
  if b < 128 then b else b + 0xFF00

/-- Model of `control_flow::bcc`: when the carry flag is clear, add the
sign-extended displacement byte (read at the effective address of the
`Relative` operand, i.e. the current program counter) to the program
counter with 16-bit wrap. -/
def bcc (cpu : CPU) (mode : AddressingMode) : Option CPU :=
  if get_carry_flag cpu.status = 0 then do
    let addr ← get_operand_address cpu mode
    let rel ← cpu.memory.read addr
    some { cpu with program_counter :=
      (cpu.program_counter + signExtend16 rel) % 65536 }
  else some cpu

/-- Model of `control_flow::bcs`: as `bcc` with the condition negated. -/
def bcs (cpu : CPU) (mode : AddressingMode) : Option CPU :=
  if get_carry_flag cpu.status ≠ 0 then do
    let addr ← get_operand_address cpu mode
    let rel ← cpu.memory.read addr
    some { cpu with program_counter :=
      (cpu.program_counter + signExtend16 rel) % 65536 }
  else some cpu

/-- Modelled from the spec: `control_flow::beq` is dispatched by
src/cpu.rs for opcode 0xF0 but its definition is missing from the
snapshot; per the spec it branches when the zero flag is set, with the
same displacement arithmetic as the other branches. -/
def beq (cpu : CPU) (mode : AddressingMode) : Option CPU :=
  if get_zero_flag cpu.status ≠ 0 then do
    let addr ← get_operand_address cpu mode
    let rel ← cpu.memory.read addr
    some { cpu with program_counter :=
      (cpu.program_counter + signExtend16 rel) % 65536 }
  else some cpu

/-- Opcode descriptor: the fields of the source's `OpCode` struct used by
the run loop (`opcode.mode` and `opcode.len`). -/
structure OpCode where
  mode : AddressingMode
  len : Nat

/-- Modelled from the spec: the static `OPCODES_MAP` decoding table is
missing from the snapshot (src/cpu/opscodes.rs only declares modules).
Entries cover exactly the opcode bytes dispatched by `CPU::run` in
src/cpu.rs, with the addressing mode and instruction length of each
encoding taken from the spec (standard 6502 encodings). -/
def opcodeTable (code : Nat) : Option OpCode :=
  match code with
  | 0x00 => some ⟨.NoneAddressing, 1⟩
  | 0x69 | 0x29 | 0xC9 | 0xE0 | 0xC0 | 0xA9 | 0xA2 | 0xA0 | 0x09 | 0x49
  | 0xE9 => some ⟨.Immediate, 2⟩
  | 0x65 | 0x25 | 0x06 | 0x24 | 0xC5 | 0xE4 | 0xC4 | 0xC6 | 0x45 | 0xE6
  | 0xA5 | 0xA6 | 0xA4 | 0x46 | 0x05 | 0x26 | 0x66 | 0xE5 | 0x85 | 0x86
  | 0x84 => some ⟨.ZeroPage, 2⟩
  | 0x75 | 0x35 | 0x16 | 0xD5 | 0xD6 | 0x55 | 0xF6 | 0xB5 | 0xB4 | 0x56
  | 0x15 | 0x36 | 0x76 | 0xF5 | 0x95 | 0x94 => some ⟨.ZeroPage_X, 2⟩
  | 0xB6 | 0x96 => some ⟨.ZeroPage_Y, 2⟩
  | 0x6D | 0x2D | 0x0E | 0x2C | 0xCD | 0xEC | 0xCC | 0xCE | 0x4D | 0xEE
  | 0xAD | 0xAE | 0xAC | 0x4E | 0x0D | 0x2E | 0x6E | 0xED | 0x8D | 0x8E
  | 0x8C => some ⟨.Absolute, 3⟩
  | 0x7D | 0x3D | 0x1E | 0xDD | 0xDE | 0x5D | 0xFE | 0xBD | 0xBC | 0x5E
  | 0x1D | 0x3E | 0x7E | 0xFD | 0x9D => some ⟨.Absolute_X, 3⟩
  | 0x79 | 0x39 | 0xD9 | 0x59 | 0xB9 | 0xBE | 0x19 | 0xF9
  | 0x99 => some ⟨.Absolute_Y, 3⟩
  | 0x61 | 0x21 | 0xC1 | 0x41 | 0xA1 | 0x01 | 0xE1
  | 0x81 => some ⟨.Indirect_X, 2⟩
  | 0x71 | 0x31 | 0xD1 | 0x51 | 0xB1 | 0x11 | 0xF1
  | 0x91 => some ⟨.Indirect_Y, 2⟩
  | 0x90 | 0xB0 | 0xF0 => some ⟨.Relative, 2⟩
  | 0x0A | 0x4A | 0x2A | 0x6A => some ⟨.Accumulator, 1⟩
  | 0x18 | 0x38 | 0xCA | 0x88 | 0xE8 | 0xC8 | 0x48 | 0xAA | 0xA8 | 0xBA
  | 0x8A | 0x9A | 0x98 => some ⟨.NoneAddressing, 1⟩
  | _ => none

/-- Model of the dispatch `match code` inside `CPU::run` (src/cpu.rs),
minus the `0x00` arm, which is handled by `runStep` (the source
`return`s from `run` there).  The catch-all arm is `todo!()` in the
source, i.e. a panic, hence `none`. -/
def dispatch (code : Nat) (mode : AddressingMode) (cpu : CPU) : Option CPU :=
  match code with
  | 0x69 | 0x65 | 0x75 | 0x6D | 0x7D | 0x79 | 0x61 | 0x71 => adc cpu mode
  | 0x29 | 0x25 | 0x35 | 0x2D | 0x3D | 0x39 | 0x21 | 0x31 => and cpu mode
  | 0x0A | 0x06 | 0x16 | 0x0E | 0x1E => asl cpu mode
  | 0x90 => bcc cpu mode
  | 0xB0 => bcs cpu mode
  | 0xF0 => beq cpu mode
  | 0x24 | 0x2C => bit cpu mode
  | 0x18 => some (clc cpu)
  | 0xC9 | 0xC5 | 0xD5 | 0xCD | 0xDD | 0xD9 | 0xC1 | 0xD1 => cmp cpu mode
  | 0xE0 | 0xE4 | 0xEC => cpx cpu mode
  | 0xC0 | 0xC4 | 0xCC => cpy cpu mode
  | 0xC6 | 0xD6 | 0xCE | 0xDE => dec cpu mode
  | 0xCA => some (dex cpu)
  | 0x88 => some (dey cpu)
  | 0x49 | 0x45 | 0x55 | 0x4D | 0x5D | 0x59 | 0x41 | 0x51 => eor cpu mode
  | 0xE6 | 0xF6 | 0xEE | 0xFE => inc cpu mode
  | 0xE8 => some (inx cpu)
  | 0xC8 => some (iny cpu)
  | 0xA9 | 0xA5 | 0xB5 | 0xAD | 0xBD | 0xB9 | 0xA1 | 0xB1 => lda cpu mode
  | 0xA2 | 0xA6 | 0xB6 | 0xAE | 0xBE => ldx cpu mode
  | 0xA0 | 0xA4 | 0xB4 | 0xAC | 0xBC => ldy cpu mode
  | 0x4A | 0x46 | 0x56 | 0x4E | 0x5E => lsr cpu mode
  | 0x09 | 0x05 | 0x15 | 0x0D | 0x1D | 0x19 | 0x01 | 0x11 => ora cpu mode
  | 0x48 => some (pha cpu)
  | 0x2A | 0x26 | 0x36 | 0x2E | 0x3E => rol cpu mode
  | 0x6A | 0x66 | 0x76 | 0x6E | 0x7E => ror cpu mode
  | 0xE9 | 0xE5 | 0xF5 | 0xED | 0xFD | 0xF9 | 0xE1 | 0xF1 => sbc cpu mode
  | 0x38 => some (sec cpu)
  | 0x85 | 0x95 | 0x8D | 0x9D | 0x99 | 0x81 | 0x91 => sta cpu mode
  | 0x86 | 0x96 | 0x8E => stx cpu mode
  | 0x84 | 0x94 | 0x8C => sty cpu mode
  | 0xAA => some (tax cpu)
  | 0xA8 => some (tay cpu)
  | 0xBA => some (tsx cpu)
  | 0x8A => some (txa cpu)
  | 0x9A => some (txs cpu)
  | 0x98 => some (tya cpu)
  | _ => none

/-- Result of one iteration of the `loop` in `CPU::run`: either the BRK
arm `return`ed from `run`, or execution continues with the new state. -/
inductive StepResult where
  | halted (cpu : CPU)
  | running (cpu : CPU)

/-- Model of one iteration of the `loop` in `CPU::run` (src/cpu.rs):
fetch the opcode byte, look it up in the table (`expect` panics on
failure), advance PC past the opcode byte, snapshot the PC, dispatch,
and apply the post-dispatch advance rule
`if program_counter_state == self.program_counter || opcode.mode == Relative
 { self.program_counter += (opcode.len - 1) as u16 }`. -/
def runStep (cpu : CPU) : Option StepResult := do
  let code ← cpu.memory.read cpu.program_counter
  let op ← opcodeTable code
  let cpu1 : CPU := { cpu with program_counter := (cpu.program_counter + 1) % 65536 }
  let program_counter_state := cpu1.program_counter
  if code = 0 then
    some (.halted cpu1)
  else do
    let cpu2 ← dispatch code op.mode cpu1
    if program_counter_state = cpu2.program_counter ∨ op.mode = .Relative then
      some (.running { cpu2 with program_counter :=
        (cpu2.program_counter + (op.len - 1)) % 65536 })
    else
      some (.running cpu2)

/-- Zero/negative invariant of the spec, stated of a status byte and the
value written to the destination: Z = (result == 0) and N = (bit 7 of
result). -/
def ZN_ok (p v : Nat) : Prop :=
  get_zero_flag p = (if v = 0 then 1 else 0) ∧
  get_negative_flag p = (if bit_7_is_set v then 1 else 0)

/-- Concrete CPU state used to witness the Z/N invariant theorem:
all registers zero, memory constantly 5. -/
def cpuC7 : CPU :=
  { register_a := 0, register_s := 0, register_x := 0, register_y := 0,
    status := 0, program_counter := 0, memory := ⟨fun _ => 5⟩ }

/-- State of `cpuC7` after LDA Immediate of the byte 5. -/
def cpuC7' : CPU := { cpuC7 with register_a := 5 }

/-- Concrete CPU state used to witness the ADC theorem: A = 0xFF, carry
set, memory constantly 1. -/
def cpuC1 : CPU :=
  { register_a := 0xFF, register_s := 0, register_x := 0, register_y := 0,
    status := 1, program_counter := 0, memory := ⟨fun _ => 1⟩ }

/-- State of `cpuC1` after ADC Immediate: 0xFF + 1 + 1 = 0x101, so
A = 1 and the carry flag stays set. -/
def cpuC1' : CPU := { cpuC1 with register_a := 1, status := 1 }

/-- Concrete CPU state used to witness the SBC theorem: A = 0x10, carry
set, memory constantly 5 (test_sbc_with_initial_carry). -/
def cpuC2 : CPU :=
  { register_a := 0x10, register_s := 0, register_x := 0, register_y := 0,
    status := 1, program_counter := 0, memory := ⟨fun _ => 5⟩ }

/-- State of `cpuC2` after SBC Immediate: 0x10 - 5 - 1 = 0x0A, no borrow. -/
def cpuC2' : CPU := { cpuC2 with register_a := 0x0A }

/-- Concrete CPU state whose X register has bit 7 set, showing that the
TXS handler modifies the status register. -/
def cpuC4 : CPU :=
  { register_a := 0, register_s := 0, register_x := 0x80, register_y := 0,
    status := 0, program_counter := 0, memory := ⟨fun _ => 0⟩ }

/-- Concrete CPU state used to witness the addressing-wrap theorem:
operand byte 0xFF at PC = 0, X = 1, Y = 3. -/
def cpuC6 : CPU :=
  { register_a := 0, register_s := 0, register_x := 1, register_y := 3,
    status := 0, program_counter := 0,
    memory := ⟨fun a => if a = 0 then 255 else if a = 1 then 2 else 7⟩ }

/-- Concrete CPU state used to witness the ROL/ROR involution theorem:
A = 0x5A with the carry flag set. -/
def cpuC9 : CPU :=
  { register_a := 0x5A, register_s := 0, register_x := 0, register_y := 0,
    status := 1, program_counter := 0, memory := ⟨fun _ => 0⟩ }

/-- Concrete CPU state used to witness the compare theorem: A = 0x50,
X = 0x40, Y = 1, overflow flag set, memory constantly 0x30. -/
def cpuC10 : CPU :=
  { register_a := 0x50, register_s := 0, register_x := 0x40, register_y := 1,
    status := 0x40, program_counter := 0, memory := ⟨fun _ => 0x30⟩ }

/-- State of `cpuC10` after CMP Immediate with operand 0x30: carry set,
zero and negative clear, overflow untouched. -/
def cpuC10' : CPU := { cpuC10 with status := 0x41 }

/-- Concrete CPU state used to witness the run-loop theorem: a taken
BCC with displacement 0xFC (-4) at address 0x8000, carry clear. -/
def cpuC5 : CPU :=
  { register_a := 0, register_s := 0, register_x := 0, register_y := 0,
    status := 0, program_counter := 0x8000,
    memory := ⟨fun a => if a = 0x8000 then 0x90 else if a = 0x8001 then 0xFC else 0⟩ }

/-- State of `cpuC5` after the BCC handler: PC = 0x8001 + (-4) mod 2^16. -/
def cpuC5b : CPU := { cpuC5 with program_counter := 0x7FFD }

/-! Helper lemmas about the embedded definitions. -/

theorem read_some_lt {m : Memory} {addr b : Nat} (h : m.read addr = some b) :
    b < 256 := by
  unfold Memory.read at h
  split at h
  · simp only [Option.some.injEq] at h
    subst h
    exact Nat.mod_lt _ (by norm_num)
  · exact Option.noConfusion h

theorem read_some_addr_lt {m : Memory} {addr b : Nat} (h : m.read addr = some b) :
    addr < MEM_SIZE := by
  unfold Memory.read at h
  split at h
  · assumption
  · exact Option.noConfusion h

theorem get_carry_flag_le_one (p : Nat) : get_carry_flag p ≤ 1 := by
  unfold get_carry_flag
  split <;> norm_num

theorem set_carry_flag_spec : ∀ p < 256, ∀ b : Bool,
    set_carry_flag p b < 256 ∧
    get_carry_flag (set_carry_flag p b) = cond b 1 0 ∧
    get_zero_flag (set_carry_flag p b) = get_zero_flag p ∧
    get_overflow_flag (set_carry_flag p b) = get_overflow_flag p ∧
    get_negative_flag (set_carry_flag p b) = get_negative_flag p ∧
    set_carry_flag p b &&& 0x7C = p &&& 0x7C := by
  decide

theorem set_zero_flag_spec : ∀ p < 256, ∀ b : Bool,
    set_zero_flag p b < 256 ∧
    get_zero_flag (set_zero_flag p b) = cond b 1 0 ∧
    get_carry_flag (set_zero_flag p b) = get_carry_flag p ∧
    get_overflow_flag (set_zero_flag p b) = get_overflow_flag p ∧
    get_negative_flag (set_zero_flag p b) = get_negative_flag p ∧
    set_zero_flag p b &&& 0x7C = p &&& 0x7C ∧
    set_zero_flag p b &&& 0x7D = p &&& 0x7D := by
  decide

theorem set_overflow_flag_spec : ∀ p < 256, ∀ b : Bool,
    set_overflow_flag p b < 256 ∧
    get_overflow_flag (set_overflow_flag p b) = cond b 1 0 ∧
    get_carry_flag (set_overflow_flag p b) = get_carry_flag p ∧
    get_zero_flag (set_overflow_flag p b) = get_zero_flag p ∧
    get_negative_flag (set_overflow_flag p b) = get_negative_flag p := by
  decide

theorem set_negative_flag_spec : ∀ p < 256, ∀ b : Bool,
    set_negative_flag p b < 256 ∧
    get_negative_flag (set_negative_flag p b) = cond b 1 0 ∧
    get_carry_flag (set_negative_flag p b) = get_carry_flag p ∧
    get_zero_flag (set_negative_flag p b) = get_zero_flag p ∧
    get_overflow_flag (set_negative_flag p b) = get_overflow_flag p ∧
    set_negative_flag p b &&& 0x7C = p &&& 0x7C ∧
    set_negative_flag p b &&& 0x7D = p &&& 0x7D := by
  decide

theorem update_zero_and_negative_flags_spec (p : Nat) (hp : p < 256) (v : Nat) :
    update_zero_and_negative_flags p v < 256 ∧
    get_zero_flag (update_zero_and_negative_flags p v) = cond (v == 0) 1 0 ∧
    get_negative_flag (update_zero_and_negative_flags p v) = cond (bit_7_is_set v) 1 0 ∧
    get_carry_flag (update_zero_and_negative_flags p v) = get_carry_flag p ∧
    get_overflow_flag (update_zero_and_negative_flags p v) = get_overflow_flag p ∧
    update_zero_and_negative_flags p v &&& 0x7D = p &&& 0x7D := by
  unfold update_zero_and_negative_flags
  obtain ⟨z1, z2, z3, z4, z5, z6, z7⟩ := set_zero_flag_spec p hp (v == 0)
  obtain ⟨n1, n2, n3, n4, n5, n6, n7⟩ := set_negative_flag_spec _ z1 (bit_7_is_set v)
  refine ⟨n1, ?_, ?_, ?_, ?_, ?_⟩
  · rw [n4, z2]
  · rw [n2]
  · rw [n3, z3]
  · rw [n5, z4]
  · rw [n7, z7]

theorem cond_one_zero (b : Bool) : (bif b then (1 : Nat) else 0) = if b = true then 1 else 0 := by
  cases b <;> rfl

theorem cond_decide_one_zero (P : Prop) [Decidable P] :
    (bif decide P then (1 : Nat) else 0) = if P then 1 else 0 := by
  by_cases h : P <;> simp [h]

theorem write_read {m m' : Memory} {addr v : Nat} (h : m.write addr v = some m') :
    m'.read addr = some (v % 256) := by
  unfold Memory.write at h
  split at h
  · simp only [Option.some.injEq] at h
    subst h
    unfold Memory.read
    rw [if_pos ‹_›]
    show some ((if addr = addr then v % 256 else m.data addr) % 256) = some (v % 256)
    rw [if_pos rfl]
    simp only [Option.some.injEq]
    omega
  · exact Option.noConfusion h

theorem rol_ror_byte_facts : ∀ a < 256, ∀ c ≤ 1,
    (((((a <<< 1) &&& 0xFF) ||| c) >>> 1) |||
      ((bif bit_7_is_set a then 1 else 0) <<< 7)) = a ∧
    (bif bit_0_is_set (((a <<< 1) &&& 0xFF) ||| c) then (1 : Nat) else 0) = c ∧
    ((((((a >>> 1) ||| (c <<< 7)) <<< 1) &&& 0xFF) |||
      (bif bit_0_is_set a then 1 else 0)) = a) ∧
    (bif bit_7_is_set ((a >>> 1) ||| (c <<< 7)) then (1 : Nat) else 0) = c := by
  decide

theorem update_carry_zero_and_negative_flags_spec (p : Nat) (hp : p < 256)
    (comparator register : Nat) :
    get_carry_flag (update_carry_zero_and_negative_flags p comparator register)
      = (if comparator ≤ register then 1 else 0) ∧
    get_zero_flag (update_carry_zero_and_negative_flags p comparator register)
      = (if register = comparator then 1 else 0) ∧
    get_negative_flag (update_carry_zero_and_negative_flags p comparator register)
      = (if bit_7_is_set ((register + 256 - comparator) % 256) then 1 else 0) ∧
    get_overflow_flag (update_carry_zero_and_negative_flags p comparator register)
      = get_overflow_flag p ∧
    update_carry_zero_and_negative_flags p comparator register &&& 0x7C = p &&& 0x7C := by
  unfold update_carry_zero_and_negative_flags
  obtain ⟨c1, c2, c3, c4, c5, c6⟩ :=
    set_carry_flag_spec p hp (decide (comparator ≤ register))
  obtain ⟨z1, z2, z3, z4, z5, z6, z7⟩ :=
    set_zero_flag_spec _ c1 (register == comparator)
  obtain ⟨n1, n2, n3, n4, n5, n6, n7⟩ :=
    set_negative_flag_spec _ z1 (bit_7_is_set ((register + 256 - comparator) % 256))
  refine ⟨?_, ?_, ?_, ?_, ?_⟩
  · rw [n3, z3, c2, cond_decide_one_zero]
  · rw [n4, z2]
    simp [Bool.cond_eq_ite, beq_iff_eq]
  · rw [n2, cond_one_zero]
  · rw [n5, z4, c4]
  · rw [n6, z6, c6]

theorem or_lt_256 {x y : Nat} (hx : x < 256) (hy : y < 256) : x ||| y < 256 := by
  have h : x ||| y < 2 ^ 8 :=
    Nat.or_lt_two_pow (lt_of_lt_of_le hx (by norm_num)) (lt_of_lt_of_le hy (by norm_num))
  exact lt_of_lt_of_le h (by norm_num)

theorem shiftRight_one_lt {v : Nat} (hv : v < 256) : v >>> 1 < 256 := by
  rw [Nat.shiftRight_eq_div_pow]
  exact lt_of_le_of_lt (Nat.div_le_self _ _) hv

theorem carry_shl7_lt (p : Nat) : get_carry_flag p <<< 7 < 256 := by
  have h := get_carry_flag_le_one p
  rw [Nat.shiftLeft_eq]
  norm_num
  omega

theorem updateZN_ZN_ok (p : Nat) (hp : p < 256) (v : Nat) :
    ZN_ok (update_zero_and_negative_flags p v) v := by
  obtain ⟨-, u2, u3, -, -, -⟩ := update_zero_and_negative_flags_spec p hp v
  constructor
  · rw [u2]
    simp [Bool.cond_eq_ite, beq_iff_eq]
  · rw [u3, cond_one_zero]

theorem shift_status_ZN_ok (p : Nat) (hp : p < 256) (v : Nat) (b : Bool) :
    ZN_ok (set_carry_flag (update_zero_and_negative_flags p v) b) v := by
  obtain ⟨u1, u2, u3, -, -, -⟩ := update_zero_and_negative_flags_spec p hp v
  obtain ⟨-, -, c3, -, c5, -⟩ := set_carry_flag_spec _ u1 b
  constructor
  · rw [c3, u2]
    simp [Bool.cond_eq_ite, beq_iff_eq]
  · rw [c5, u3, cond_one_zero]

theorem arith_status_ZN_ok (p : Nat) (hp : p < 256) (result : Nat) (b0 bv : Bool) :
    ZN_ok (set_negative_flag (set_overflow_flag
      (set_zero_flag (set_carry_flag p b0) (result == 0)) bv)
      ((result &&& 0x80) != 0)) result := by
  obtain ⟨c1, -, c3, -, -, -⟩ := set_carry_flag_spec p hp b0
  obtain ⟨z1, z2, -, -, -, -, -⟩ := set_zero_flag_spec _ c1 (result == 0)
  obtain ⟨o1, -, -, o4, -⟩ := set_overflow_flag_spec _ z1 bv
  obtain ⟨-, n2, -, n4, -, -, -⟩ := set_negative_flag_spec _ o1 ((result &&& 0x80) != 0)
  constructor
  · rw [n4, o4, z2]
    simp [Bool.cond_eq_ite, beq_iff_eq]
  · rw [n2, cond_one_zero]
    rfl

theorem mem_write_ZN_ok (cpu : CPU) (hp : cpu.status < 256) (addr newv : Nat) (b : Bool)
    (cpu1 : CPU) (hlt : newv < 256)
    (h : (do
      let m ← cpu.memory.write addr newv
      some { cpu with
             memory := m,
             status := set_carry_flag (update_zero_and_negative_flags cpu.status newv) b })
      = some cpu1) :
    ∃ w, cpu1.memory.read addr = some w ∧ ZN_ok cpu1.status w := by
  cases hw : cpu.memory.write addr newv with
  | none =>
      rw [hw] at h
      simp at h
  | some m1 =>
      rw [hw] at h
      simp only [Option.bind_eq_bind, Option.some_bind, Option.some.injEq] at h
      subst h
      refine ⟨newv, ?_, ?_⟩
      · have hr := write_read hw
        rw [Nat.mod_eq_of_lt hlt] at hr
        exact hr
      · exact shift_status_ZN_ok cpu.status hp newv b

theorem mem_write_plain_ZN_ok (cpu : CPU) (hp : cpu.status < 256) (addr newv : Nat)
    (cpu1 : CPU) (hlt : newv < 256)
    (h : (do
      let m ← cpu.memory.write addr newv
      some { cpu with
             memory := m,
             status := update_zero_and_negative_flags cpu.status newv })
      = some cpu1) :
    ∃ w, cpu1.memory.read addr = some w ∧ ZN_ok cpu1.status w := by
  cases hw : cpu.memory.write addr newv with
  | none =>
      rw [hw] at h
      simp at h
  | some m1 =>
      rw [hw] at h
      simp only [Option.bind_eq_bind, Option.some_bind, Option.some.injEq] at h
      subst h
      refine ⟨newv, ?_, ?_⟩
      · have hr := write_read hw
        rw [Nat.mod_eq_of_lt hlt] at hr
        exact hr
      · exact updateZN_ZN_ok cpu.status hp newv

theorem and_255_eq_mod (t : Nat) : t &&& 0xFF = t % 256 := by
  have h := Nat.and_pow_two_sub_one_eq_mod t 8
  norm_num at h
  exact h

theorem hi_lo_or (hi lo : Nat) (hlo : lo < 256) :
    (hi <<< 8) ||| lo = 256 * hi + lo := by
  have h := Nat.mul_add_lt_is_or (i := 8) (b := lo) (by norm_num [hlo]) hi
  rw [Nat.shiftLeft_eq, Nat.mul_comm hi (2 ^ 8), ← h]

/-! Claim theorems. -/

/-- C1: For every ADC execution with accumulator value A, operand byte op
read from the effective address, and incoming carry bit c, the new
accumulator and carry satisfy `A' + 256 * C' = A + op + c`, and
`Z' = (A' == 0)`, `N' = bit 7 of A'`, and
`V' = (((A ^^^ A') &&& (op ^^^ A') &&& 0x80) ≠ 0)`. -/
theorem C1_adc_sum_and_flags (cpu cpu1 : CPU) (mode : AddressingMode) (addr op : Nat)
    (hWF : cpu.WF)
    (haddr : get_operand_address cpu mode = some addr)
    (hop : cpu.memory.read addr = some op)
    (h : adc cpu mode = some cpu1) :
    cpu1.register_a + 256 * get_carry_flag cpu1.status
      = cpu.register_a + op + get_carry_flag cpu.status ∧
    get_zero_flag cpu1.status = (if cpu1.register_a = 0 then 1 else 0) ∧
    get_negative_flag cpu1.status = (if bit_7_is_set cpu1.register_a then 1 else 0) ∧
    get_overflow_flag cpu1.status =
      (if (cpu.register_a ^^^ cpu1.register_a) &&& (op ^^^ cpu1.register_a) &&& 0x80 ≠ 0
       then 1 else 0) := by
  obtain ⟨hA, -, -, -, hP, -⟩ := hWF
  have hop256 : op < 256 := read_some_lt hop
  have hcle : get_carry_flag cpu.status ≤ 1 := get_carry_flag_le_one cpu.status
  unfold adc at h
  rw [haddr] at h
  simp only [Option.bind_eq_bind, Option.some_bind, hop, Option.some.injEq] at h
  subst h
  simp only
  obtain ⟨c1, c2, c3, c4, c5, c6⟩ :=
    set_carry_flag_spec cpu.status hP
      (decide (0xFF < (cpu.register_a + op + get_carry_flag cpu.status) % 65536))
  obtain ⟨z1, z2, z3, z4, z5, z6, z7⟩ :=
    set_zero_flag_spec _ c1
      ((cpu.register_a + op + get_carry_flag cpu.status) % 65536 &&& 0xFF == 0)
  obtain ⟨o1, o2, o3, o4, o5⟩ :=
    set_overflow_flag_spec _ z1
      ((cpu.register_a ^^^ ((cpu.register_a + op + get_carry_flag cpu.status) % 65536 &&& 0xFF)) &&&
        (op ^^^ ((cpu.register_a + op + get_carry_flag cpu.status) % 65536 &&& 0xFF)) &&& 0x80 != 0)
  obtain ⟨n1, n2, n3, n4, n5, n6, n7⟩ :=
    set_negative_flag_spec _ o1
      (((cpu.register_a + op + get_carry_flag cpu.status) % 65536 &&& 0xFF) &&& 0x80 != 0)
  have hmod : (cpu.register_a + op + get_carry_flag cpu.status) % 65536
      = cpu.register_a + op + get_carry_flag cpu.status := Nat.mod_eq_of_lt (by omega)
  refine ⟨?_, ?_, ?_, ?_⟩
  · rw [n3, o3, z3, c2, and_255_eq_mod, hmod]
    cases hd : decide (0xFF < cpu.register_a + op + get_carry_flag cpu.status) with
    | false =>
        have hle := of_decide_eq_false hd
        simp only [cond_false]
        omega
    | true =>
        have hlt := of_decide_eq_true hd
        simp only [cond_true]
        omega
  · rw [n4, o4, z2]
    simp [Bool.cond_eq_ite, beq_iff_eq]
  · rw [n2]
    unfold bit_7_is_set
    rw [cond_one_zero]
  · rw [n5, o2, cond_one_zero]
    simp [bne_iff_ne]

/-- Witness for C1 at a concrete input: ADC Immediate on `cpuC1`. -/
theorem C1_witness :
    cpuC1'.register_a + 256 * get_carry_flag cpuC1'.status
      = cpuC1.register_a + 1 + get_carry_flag cpuC1.status ∧
    get_zero_flag cpuC1'.status = (if cpuC1'.register_a = 0 then 1 else 0) ∧
    get_negative_flag cpuC1'.status = (if bit_7_is_set cpuC1'.register_a then 1 else 0) ∧
    get_overflow_flag cpuC1'.status =
      (if (cpuC1.register_a ^^^ cpuC1'.register_a) &&& (1 ^^^ cpuC1'.register_a) &&& 0x80 ≠ 0
       then 1 else 0) :=
  C1_adc_sum_and_flags cpuC1 cpuC1' .Immediate 0 1 (by decide) rfl rfl rfl

/-- C2: For every SBC execution with accumulator A, operand byte op and
incoming carry bit c, the new accumulator is `(A - op - c) mod 256` over
the integers and the new carry is 1 exactly when `A - op - c ≥ 0`. -/
theorem C2_sbc_result_and_borrow (cpu cpu1 : CPU) (mode : AddressingMode) (addr op : Nat)
    (hWF : cpu.WF)
    (haddr : get_operand_address cpu mode = some addr)
    (hop : cpu.memory.read addr = some op)
    (h : sbc cpu mode = some cpu1) :
    (cpu1.register_a : Int)
      = ((cpu.register_a : Int) - op - get_carry_flag cpu.status) % 256 ∧
    (get_carry_flag cpu1.status = 1 ↔
      0 ≤ (cpu.register_a : Int) - op - get_carry_flag cpu.status) := by
  obtain ⟨hA, -, -, -, hP, -⟩ := hWF
  have hop256 : op < 256 := read_some_lt hop
  have hcle : get_carry_flag cpu.status ≤ 1 := get_carry_flag_le_one cpu.status
  unfold sbc at h
  rw [haddr] at h
  simp only [Option.bind_eq_bind, Option.some_bind, hop, Option.some.injEq] at h
  subst h
  simp only
  obtain ⟨c1, c2, c3, c4, c5, c6⟩ :=
    set_carry_flag_spec cpu.status hP
      (decide ((cpu.register_a + 131072 - op - get_carry_flag cpu.status) % 65536 ≤ 0xFF))
  obtain ⟨z1, z2, z3, z4, z5, z6, z7⟩ :=
    set_zero_flag_spec _ c1
      ((cpu.register_a + 131072 - op - get_carry_flag cpu.status) % 65536 &&& 0xFF == 0)
  obtain ⟨o1, o2, o3, o4, o5⟩ :=
    set_overflow_flag_spec _ z1
      (decide ((cpu.register_a ^^^ op) &&& 0x80 = 0) &&
       decide ((cpu.register_a ^^^
         ((cpu.register_a + 131072 - op - get_carry_flag cpu.status) % 65536 &&& 0xFF)) &&& 0x80 ≠ 0))
  obtain ⟨n1, n2, n3, n4, n5, n6, n7⟩ :=
    set_negative_flag_spec _ o1
      ((((cpu.register_a + 131072 - op - get_carry_flag cpu.status) % 65536 &&& 0xFF)) &&& 0x80 != 0)
  constructor
  · rw [and_255_eq_mod]
    omega
  · rw [n3, o3, z3, c2]
    cases hd : decide ((cpu.register_a + 131072 - op - get_carry_flag cpu.status) % 65536 ≤ 0xFF) with
    | false =>
        have hgt := of_decide_eq_false hd
        simp only [cond_false]
        constructor
        · intro h01
          omega
        · intro hge
          omega
    | true =>
        have hle := of_decide_eq_true hd
        simp only [cond_true]
        constructor
        · intro _
          omega
        · intro _
          trivial

/-- Witness for C2 at a concrete input: SBC Immediate on `cpuC2`. -/
theorem C2_witness :
    ((cpuC2'.register_a : Int)
      = ((cpuC2.register_a : Int) - 5 - get_carry_flag cpuC2.status) % 256) ∧
    (get_carry_flag cpuC2'.status = 1 ↔
      0 ≤ (cpuC2.register_a : Int) - 5 - get_carry_flag cpuC2.status) :=
  C2_sbc_result_and_borrow cpuC2 cpuC2' .Immediate 0 5 (by decide) rfl rfl rfl

/-- C3: the spec states that memory holds 65,536 bytes and `read` is
total on all 16-bit addresses, but the source declares the backing array
as `[u8; 0xFFFF]` (65,535 bytes), so `read(0xFFFF)` indexes one past the
end of the array and panics: for every memory state, reading address
0xFFFF is a panic (`none`), not a byte. -/
theorem C3_read_top_address_panics (m : Memory) :
    MEM_SIZE = 65535 ∧ m.read 0xFFFF = none := by
  constructor
  · rfl
  · unfold Memory.read MEM_SIZE
    rw [if_neg]
    omega

/-- C4 counterexample: on a state with X = 0x80 and P = 0, the TXS
handler changes the processor status register (it sets the negative
flag), refuting the claim that P is exactly what it was before. -/
theorem C4_txs_counterexample : (txs cpuC4).status ≠ cpuC4.status := by
  decide

/-- C4 amended: TXS copies X into S and, like the other transfer
handlers, updates Z and N from the copied value; all other registers,
the memory, and all other status bits are unchanged. -/
theorem C4_txs_amended (cpu : CPU) (hWF : cpu.WF) :
    (txs cpu).register_s = cpu.register_x ∧
    (txs cpu).register_a = cpu.register_a ∧
    (txs cpu).register_x = cpu.register_x ∧
    (txs cpu).register_y = cpu.register_y ∧
    (txs cpu).program_counter = cpu.program_counter ∧
    (txs cpu).memory = cpu.memory ∧
    get_zero_flag (txs cpu).status = (if cpu.register_x = 0 then 1 else 0) ∧
    get_negative_flag (txs cpu).status = (if bit_7_is_set cpu.register_x then 1 else 0) ∧
    (txs cpu).status &&& 0x7D = cpu.status &&& 0x7D := by
  obtain ⟨-, -, -, -, hP, -⟩ := hWF
  obtain ⟨u1, u2, u3, u4, u5, u6⟩ :=
    update_zero_and_negative_flags_spec cpu.status hP cpu.register_x
  unfold txs
  refine ⟨rfl, rfl, rfl, rfl, rfl, rfl, ?_, ?_, ?_⟩
  · rw [u2]
    simp [Bool.cond_eq_ite, beq_iff_eq]
  · rw [u3, cond_one_zero]
  · exact u6

/-- Witness for the amended C4 theorem at the concrete state `cpuC4`. -/
theorem C4_witness :
    (txs cpuC4).register_s = cpuC4.register_x ∧
    (txs cpuC4).register_a = cpuC4.register_a ∧
    (txs cpuC4).register_x = cpuC4.register_x ∧
    (txs cpuC4).register_y = cpuC4.register_y ∧
    (txs cpuC4).program_counter = cpuC4.program_counter ∧
    (txs cpuC4).memory = cpuC4.memory ∧
    get_zero_flag (txs cpuC4).status = (if cpuC4.register_x = 0 then 1 else 0) ∧
    get_negative_flag (txs cpuC4).status = (if bit_7_is_set cpuC4.register_x then 1 else 0) ∧
    (txs cpuC4).status &&& 0x7D = cpuC4.status &&& 0x7D :=
  C4_txs_amended cpuC4 (by decide)

/-- C6: effective-address resolution wraps within the zero page:
ZeroPage,X and ZeroPage,Y yield `(read(PC) + index) mod 256`; Indirect,X
reads the pointer word from `p` and `(p+1) mod 256` with
`p = (read(PC) + X) mod 256`; Indirect,Y reads the base word from `p`
and `(p+1) mod 256` with `p = read(PC)`, then adds Y modulo 65536. -/
theorem C6_zero_page_wrap (cpu : CPU) (b lox hix loy hiy : Nat) (hWF : cpu.WF)
    (hb : cpu.memory.read cpu.program_counter = some b)
    (hlox : cpu.memory.read ((b + cpu.register_x) % 256) = some lox)
    (hhix : cpu.memory.read (((b + cpu.register_x) % 256 + 1) % 256) = some hix)
    (hloy : cpu.memory.read b = some loy)
    (hhiy : cpu.memory.read ((b + 1) % 256) = some hiy) :
    get_operand_address cpu .ZeroPage_X = some ((b + cpu.register_x) % 256) ∧
    get_operand_address cpu .ZeroPage_Y = some ((b + cpu.register_y) % 256) ∧
    get_operand_address cpu .Indirect_X = some (256 * hix + lox) ∧
    get_operand_address cpu .Indirect_Y
      = some ((256 * hiy + loy + cpu.register_y) % 65536) := by
  refine ⟨?_, ?_, ?_, ?_⟩
  · simp only [get_operand_address, hb, Option.bind_eq_bind, Option.some_bind]
  · simp only [get_operand_address, hb, Option.bind_eq_bind, Option.some_bind]
  · simp only [get_operand_address, hb, hlox, hhix, Option.bind_eq_bind, Option.some_bind]
    rw [hi_lo_or hix lox (read_some_lt hlox)]
  · simp only [get_operand_address, hb, hloy, hhiy, Option.bind_eq_bind, Option.some_bind]
    rw [hi_lo_or hiy loy (read_some_lt hloy)]

/-- Witness for C6 at the concrete state `cpuC6`: operand byte 0xFF,
X = 1 wraps the zero-page index to 0x00, the Indirect,X pointer to
0x00/0x01, and the Indirect,Y high-byte read from 0xFF wraps to 0x00. -/
theorem C6_witness :
    get_operand_address cpuC6 .ZeroPage_X = some ((255 + cpuC6.register_x) % 256) ∧
    get_operand_address cpuC6 .ZeroPage_Y = some ((255 + cpuC6.register_y) % 256) ∧
    get_operand_address cpuC6 .Indirect_X = some (256 * 2 + 255) ∧
    get_operand_address cpuC6 .Indirect_Y
      = some ((256 * 255 + 7 + cpuC6.register_y) % 65536) :=
  C6_zero_page_wrap cpuC6 255 255 2 7 255 (by decide) rfl rfl rfl rfl rfl

/-- C8: the spec claims `load_program` copies every image of length at
most `0xFFFF - 0x8000 + 1 = 0x8000` and rejects longer ones, but because
the backing array is `[u8; 0xFFFF]` (one byte short of the full address
space), the slice `0x8000..0x10000` used for a maximal 0x8000-byte image
is out of bounds and the loader panics on it, while a 0x7FFF-byte image
loads fine: the code's actual limit is 0x7FFF, not 0x8000. -/
theorem C8_load_program_boundary (m : Memory) :
    (List.replicate 0x8000 0).length = 0xFFFF - 0x8000 + 1 ∧
    m.load_program (List.replicate 0x8000 (0 : Nat)) = none ∧
    (∃ m', m.load_program (List.replicate 0x7FFF (0 : Nat)) = some m') := by
  refine ⟨?_, ?_, ?_⟩
  · rw [List.length_replicate]
  · unfold Memory.load_program MEM_SIZE
    rw [if_neg]
    rw [List.length_replicate]
    omega
  · unfold Memory.load_program MEM_SIZE
    rw [if_pos]
    · exact ⟨_, rfl⟩
    · rw [List.length_replicate]

/-- C9: on the accumulator, ROL then ROR (and ROR then ROL) restores the
original (accumulator, carry) pair, for every 8-bit accumulator and
every initial carry bit. -/
theorem C9_rol_ror_involution (cpu : CPU) (hWF : cpu.WF) :
    (∃ cpu1 cpu2, rol cpu .Accumulator = some cpu1 ∧
      ror cpu1 .Accumulator = some cpu2 ∧
      cpu2.register_a = cpu.register_a ∧
      get_carry_flag cpu2.status = get_carry_flag cpu.status) ∧
    (∃ cpu1 cpu2, ror cpu .Accumulator = some cpu1 ∧
      rol cpu1 .Accumulator = some cpu2 ∧
      cpu2.register_a = cpu.register_a ∧
      get_carry_flag cpu2.status = get_carry_flag cpu.status) := by
  obtain ⟨hA, -, -, -, hP, -⟩ := hWF
  have hc : get_carry_flag cpu.status ≤ 1 := get_carry_flag_le_one cpu.status
  obtain ⟨f1, f2, f3, f4⟩ :=
    rol_ror_byte_facts cpu.register_a hA (get_carry_flag cpu.status) hc
  constructor
  · refine ⟨_, _, rfl, rfl, ?_, ?_⟩
    · show ((((cpu.register_a <<< 1) &&& 0xFF) ||| get_carry_flag cpu.status) >>> 1) |||
        (get_carry_flag
          (set_carry_flag
            (update_zero_and_negative_flags cpu.status
              (((cpu.register_a <<< 1) &&& 0xFF) ||| get_carry_flag cpu.status))
            (bit_7_is_set cpu.register_a)) <<< 7) = cpu.register_a
      rw [(set_carry_flag_spec _
        (update_zero_and_negative_flags_spec cpu.status hP _).1
        (bit_7_is_set cpu.register_a)).2.1]
      exact f1
    · show get_carry_flag
        (set_carry_flag
          (update_zero_and_negative_flags
            (set_carry_flag
              (update_zero_and_negative_flags cpu.status
                (((cpu.register_a <<< 1) &&& 0xFF) ||| get_carry_flag cpu.status))
              (bit_7_is_set cpu.register_a))
            (((((cpu.register_a <<< 1) &&& 0xFF) ||| get_carry_flag cpu.status) >>> 1) |||
              (get_carry_flag
                (set_carry_flag
                  (update_zero_and_negative_flags cpu.status
                    (((cpu.register_a <<< 1) &&& 0xFF) ||| get_carry_flag cpu.status))
                  (bit_7_is_set cpu.register_a)) <<< 7)))
          (bit_0_is_set
            (((cpu.register_a <<< 1) &&& 0xFF) ||| get_carry_flag cpu.status)))
        = get_carry_flag cpu.status
      rw [(set_carry_flag_spec _
        (update_zero_and_negative_flags_spec _
          (set_carry_flag_spec _
            (update_zero_and_negative_flags_spec cpu.status hP _).1
            (bit_7_is_set cpu.register_a)).1 _).1
        (bit_0_is_set (((cpu.register_a <<< 1) &&& 0xFF) ||| get_carry_flag cpu.status))).2.1]
      exact f2
  · refine ⟨_, _, rfl, rfl, ?_, ?_⟩
    · show ((((cpu.register_a >>> 1) ||| (get_carry_flag cpu.status <<< 7)) <<< 1) &&& 0xFF) |||
        get_carry_flag
          (set_carry_flag
            (update_zero_and_negative_flags cpu.status
              ((cpu.register_a >>> 1) ||| (get_carry_flag cpu.status <<< 7)))
            (bit_0_is_set cpu.register_a)) = cpu.register_a
      rw [(set_carry_flag_spec _
        (update_zero_and_negative_flags_spec cpu.status hP _).1
        (bit_0_is_set cpu.register_a)).2.1]
      exact f3
    · show get_carry_flag
        (set_carry_flag
          (update_zero_and_negative_flags
            (set_carry_flag
              (update_zero_and_negative_flags cpu.status
                ((cpu.register_a >>> 1) ||| (get_carry_flag cpu.status <<< 7)))
              (bit_0_is_set cpu.register_a))
            (((((cpu.register_a >>> 1) ||| (get_carry_flag cpu.status <<< 7)) <<< 1) &&& 0xFF) |||
              get_carry_flag
                (set_carry_flag
                  (update_zero_and_negative_flags cpu.status
                    ((cpu.register_a >>> 1) ||| (get_carry_flag cpu.status <<< 7)))
                  (bit_0_is_set cpu.register_a))))
          (bit_7_is_set ((cpu.register_a >>> 1) ||| (get_carry_flag cpu.status <<< 7))))
        = get_carry_flag cpu.status
      rw [(set_carry_flag_spec _
        (update_zero_and_negative_flags_spec _
          (set_carry_flag_spec _
            (update_zero_and_negative_flags_spec cpu.status hP _).1
            (bit_0_is_set cpu.register_a)).1 _).1
        (bit_7_is_set ((cpu.register_a >>> 1) ||| (get_carry_flag cpu.status <<< 7)))).2.1]
      exact f4

/-- Witness for C9 at the concrete state `cpuC9` (A = 0x5A, carry set). -/
theorem C9_witness :
    (∃ cpu1 cpu2, rol cpuC9 .Accumulator = some cpu1 ∧
      ror cpu1 .Accumulator = some cpu2 ∧
      cpu2.register_a = cpuC9.register_a ∧
      get_carry_flag cpu2.status = get_carry_flag cpuC9.status) ∧
    (∃ cpu1 cpu2, ror cpuC9 .Accumulator = some cpu1 ∧
      rol cpu1 .Accumulator = some cpu2 ∧
      cpu2.register_a = cpuC9.register_a ∧
      get_carry_flag cpu2.status = get_carry_flag cpuC9.status) :=
  C9_rol_ror_involution cpuC9 (by decide)

/-- C10: CMP, CPX and CPY set C = (r ≥ m), Z = (r == m), N = bit 7 of
`(r - m) mod 256` and change nothing else: A, X, Y, S, the memory, the
program counter, the overflow flag and every other status bit are
unchanged.  The last three conjuncts identify the wrapped Nat
subtraction with the integer `(r - m) mod 256` of the claim. -/
theorem C10_compare_frame (cpu cpu1 : CPU) (mode : AddressingMode) (addr op : Nat)
    (hWF : cpu.WF)
    (haddr : get_operand_address cpu mode = some addr)
    (hop : cpu.memory.read addr = some op) :
    (cmp cpu mode = some cpu1 →
      get_carry_flag cpu1.status = (if op ≤ cpu.register_a then 1 else 0) ∧
      get_zero_flag cpu1.status = (if cpu.register_a = op then 1 else 0) ∧
      get_negative_flag cpu1.status
        = (if bit_7_is_set ((cpu.register_a + 256 - op) % 256) then 1 else 0) ∧
      cpu1.register_a = cpu.register_a ∧ cpu1.register_x = cpu.register_x ∧
      cpu1.register_y = cpu.register_y ∧ cpu1.register_s = cpu.register_s ∧
      cpu1.memory = cpu.memory ∧ cpu1.program_counter = cpu.program_counter ∧
      get_overflow_flag cpu1.status = get_overflow_flag cpu.status ∧
      cpu1.status &&& 0x7C = cpu.status &&& 0x7C) ∧
    (cpx cpu mode = some cpu1 →
      get_carry_flag cpu1.status = (if op ≤ cpu.register_x then 1 else 0) ∧
      get_zero_flag cpu1.status = (if cpu.register_x = op then 1 else 0) ∧
      get_negative_flag cpu1.status
        = (if bit_7_is_set ((cpu.register_x + 256 - op) % 256) then 1 else 0) ∧
      cpu1.register_a = cpu.register_a ∧ cpu1.register_x = cpu.register_x ∧
      cpu1.register_y = cpu.register_y ∧ cpu1.register_s = cpu.register_s ∧
      cpu1.memory = cpu.memory ∧ cpu1.program_counter = cpu.program_counter ∧
      get_overflow_flag cpu1.status = get_overflow_flag cpu.status ∧
      cpu1.status &&& 0x7C = cpu.status &&& 0x7C) ∧
    (cpy cpu mode = some cpu1 →
      get_carry_flag cpu1.status = (if op ≤ cpu.register_y then 1 else 0) ∧
      get_zero_flag cpu1.status = (if cpu.register_y = op then 1 else 0) ∧
      get_negative_flag cpu1.status
        = (if bit_7_is_set ((cpu.register_y + 256 - op) % 256) then 1 else 0) ∧
      cpu1.register_a = cpu.register_a ∧ cpu1.register_x = cpu.register_x ∧
      cpu1.register_y = cpu.register_y ∧ cpu1.register_s = cpu.register_s ∧
      cpu1.memory = cpu.memory ∧ cpu1.program_counter = cpu.program_counter ∧
      get_overflow_flag cpu1.status = get_overflow_flag cpu.status ∧
      cpu1.status &&& 0x7C = cpu.status &&& 0x7C) ∧
    (((cpu.register_a + 256 - op) % 256 : Int)
      = ((cpu.register_a : Int) - op) % 256) ∧
    (((cpu.register_x + 256 - op) % 256 : Int)
      = ((cpu.register_x : Int) - op) % 256) ∧
    (((cpu.register_y + 256 - op) % 256 : Int)
      = ((cpu.register_y : Int) - op) % 256) := by
  obtain ⟨hA, hS, hX, hY, hP, hPC⟩ := hWF
  have hop256 : op < 256 := read_some_lt hop
  refine ⟨?_, ?_, ?_, by omega, by omega, by omega⟩
  · intro h
    unfold cmp at h
    rw [haddr] at h
    simp only [Option.bind_eq_bind, Option.some_bind, hop, Option.some.injEq] at h
    subst h
    obtain ⟨q1, q2, q3, q4, q5⟩ :=
      update_carry_zero_and_negative_flags_spec cpu.status hP op cpu.register_a
    exact ⟨q1, q2, q3, rfl, rfl, rfl, rfl, rfl, rfl, q4, q5⟩
  · intro h
    unfold cpx at h
    rw [haddr] at h
    simp only [Option.bind_eq_bind, Option.some_bind, hop, Option.some.injEq] at h
    subst h
    obtain ⟨q1, q2, q3, q4, q5⟩ :=
      update_carry_zero_and_negative_flags_spec cpu.status hP op cpu.register_x
    exact ⟨q1, q2, q3, rfl, rfl, rfl, rfl, rfl, rfl, q4, q5⟩
  · intro h
    unfold cpy at h
    rw [haddr] at h
    simp only [Option.bind_eq_bind, Option.some_bind, hop, Option.some.injEq] at h
    subst h
    obtain ⟨q1, q2, q3, q4, q5⟩ :=
      update_carry_zero_and_negative_flags_spec cpu.status hP op cpu.register_y
    exact ⟨q1, q2, q3, rfl, rfl, rfl, rfl, rfl, rfl, q4, q5⟩

/-- Witness for C10: CMP Immediate on `cpuC10` (A = 0x50 against operand
0x30, with the overflow flag initially set and preserved). -/
theorem C10_witness :
    get_carry_flag cpuC10'.status = (if 0x30 ≤ cpuC10.register_a then 1 else 0) ∧
    get_zero_flag cpuC10'.status = (if cpuC10.register_a = 0x30 then 1 else 0) ∧
    get_negative_flag cpuC10'.status
      = (if bit_7_is_set ((cpuC10.register_a + 256 - 0x30) % 256) then 1 else 0) ∧
    cpuC10'.register_a = cpuC10.register_a ∧ cpuC10'.register_x = cpuC10.register_x ∧
    cpuC10'.register_y = cpuC10.register_y ∧ cpuC10'.register_s = cpuC10.register_s ∧
    cpuC10'.memory = cpuC10.memory ∧ cpuC10'.program_counter = cpuC10.program_counter ∧
    get_overflow_flag cpuC10'.status = get_overflow_flag cpuC10.status ∧
    cpuC10'.status &&& 0x7C = cpuC10.status &&& 0x7C :=
  (C10_compare_frame cpuC10 cpuC10' .Immediate 0 0x30 (by decide) rfl rfl).1 rfl

/-- C7: every handler that writes a result to A, X, Y, or to memory with
flag update (loads, transfers, logic, shifts and rotates, increments and
decrements, ADC, SBC) leaves Z = (result == 0) and N = (bit 7 of
result), where result is the value written to the destination (for
memory destinations, the byte readable at the effective address
afterwards). -/
theorem C7_zn_invariant (cpu : CPU) (hWF : cpu.WF) :
    (∀ mode addr v cpu1, get_operand_address cpu mode = some addr →
      cpu.memory.read addr = some v → lda cpu mode = some cpu1 →
      ZN_ok cpu1.status cpu1.register_a) ∧
    (∀ mode addr v cpu1, get_operand_address cpu mode = some addr →
      cpu.memory.read addr = some v → ldx cpu mode = some cpu1 →
      ZN_ok cpu1.status cpu1.register_x) ∧
    (∀ mode addr v cpu1, get_operand_address cpu mode = some addr →
      cpu.memory.read addr = some v → ldy cpu mode = some cpu1 →
      ZN_ok cpu1.status cpu1.register_y) ∧
    ZN_ok (tax cpu).status (tax cpu).register_x ∧
    ZN_ok (tay cpu).status (tay cpu).register_y ∧
    ZN_ok (tsx cpu).status (tsx cpu).register_x ∧
    ZN_ok (txa cpu).status (txa cpu).register_a ∧
    ZN_ok (tya cpu).status (tya cpu).register_a ∧
    ZN_ok (inx cpu).status (inx cpu).register_x ∧
    ZN_ok (iny cpu).status (iny cpu).register_y ∧
    ZN_ok (dex cpu).status (dex cpu).register_x ∧
    ZN_ok (dey cpu).status (dey cpu).register_y ∧
    (∀ mode addr v cpu1, get_operand_address cpu mode = some addr →
      cpu.memory.read addr = some v → and cpu mode = some cpu1 →
      ZN_ok cpu1.status cpu1.register_a) ∧
    (∀ mode addr v cpu1, get_operand_address cpu mode = some addr →
      cpu.memory.read addr = some v → ora cpu mode = some cpu1 →
      ZN_ok cpu1.status cpu1.register_a) ∧
    (∀ mode addr v cpu1, get_operand_address cpu mode = some addr →
      cpu.memory.read addr = some v → eor cpu mode = some cpu1 →
      ZN_ok cpu1.status cpu1.register_a) ∧
    (∀ mode addr v cpu1, get_operand_address cpu mode = some addr →
      cpu.memory.read addr = some v → adc cpu mode = some cpu1 →
      ZN_ok cpu1.status cpu1.register_a) ∧
    (∀ mode addr v cpu1, get_operand_address cpu mode = some addr →
      cpu.memory.read addr = some v → sbc cpu mode = some cpu1 →
      ZN_ok cpu1.status cpu1.register_a) ∧
    (∀ cpu1, asl cpu .Accumulator = some cpu1 → ZN_ok cpu1.status cpu1.register_a) ∧
    (∀ mode addr v cpu1, mode ≠ .Accumulator →
      get_operand_address cpu mode = some addr →
      cpu.memory.read addr = some v → asl cpu mode = some cpu1 →
      ∃ w, cpu1.memory.read addr = some w ∧ ZN_ok cpu1.status w) ∧
    (∀ cpu1, lsr cpu .Accumulator = some cpu1 → ZN_ok cpu1.status cpu1.register_a) ∧
    (∀ mode addr v cpu1, mode ≠ .Accumulator →
      get_operand_address cpu mode = some addr →
      cpu.memory.read addr = some v → lsr cpu mode = some cpu1 →
      ∃ w, cpu1.memory.read addr = some w ∧ ZN_ok cpu1.status w) ∧
    (∀ cpu1, rol cpu .Accumulator = some cpu1 → ZN_ok cpu1.status cpu1.register_a) ∧
    (∀ mode addr v cpu1, mode ≠ .Accumulator →
      get_operand_address cpu mode = some addr →
      cpu.memory.read addr = some v → rol cpu mode = some cpu1 →
      ∃ w, cpu1.memory.read addr = some w ∧ ZN_ok cpu1.status w) ∧
    (∀ cpu1, ror cpu .Accumulator = some cpu1 → ZN_ok cpu1.status cpu1.register_a) ∧
    (∀ mode addr v cpu1, mode ≠ .Accumulator →
      get_operand_address cpu mode = some addr →
      cpu.memory.read addr = some v → ror cpu mode = some cpu1 →
      ∃ w, cpu1.memory.read addr = some w ∧ ZN_ok cpu1.status w) ∧
    (∀ mode addr v cpu1, get_operand_address cpu mode = some addr →
      cpu.memory.read addr = some v → inc cpu mode = some cpu1 →
      ∃ w, cpu1.memory.read addr = some w ∧ ZN_ok cpu1.status w) ∧
    (∀ mode addr v cpu1, get_operand_address cpu mode = some addr →
      cpu.memory.read addr = some v → dec cpu mode = some cpu1 →
      ∃ w, cpu1.memory.read addr = some w ∧ ZN_ok cpu1.status w) := by
  obtain ⟨hA, hS, hX, hY, hP, hPC⟩ := hWF
  refine ⟨?_, ?_, ?_, ?_, ?_, ?_, ?_, ?_, ?_, ?_, ?_, ?_, ?_, ?_, ?_, ?_, ?_,
    ?_, ?_, ?_, ?_, ?_, ?_, ?_, ?_, ?_, ?_⟩
  · intro mode addr v cpu1 haddr hv h
    unfold lda at h
    rw [haddr] at h
    simp only [Option.bind_eq_bind, Option.some_bind, hv, Option.some.injEq] at h
    subst h
    exact updateZN_ZN_ok cpu.status hP v
  · intro mode addr v cpu1 haddr hv h
    unfold ldx at h
    rw [haddr] at h
    simp only [Option.bind_eq_bind, Option.some_bind, hv, Option.some.injEq] at h
    subst h
    exact updateZN_ZN_ok cpu.status hP v
  · intro mode addr v cpu1 haddr hv h
    unfold ldy at h
    rw [haddr] at h
    simp only [Option.bind_eq_bind, Option.some_bind, hv, Option.some.injEq] at h
    subst h
    exact updateZN_ZN_ok cpu.status hP v
  · exact updateZN_ZN_ok cpu.status hP cpu.register_a
  · exact updateZN_ZN_ok cpu.status hP cpu.register_a
  · exact updateZN_ZN_ok cpu.status hP cpu.register_s
  · exact updateZN_ZN_ok cpu.status hP cpu.register_x
  · exact updateZN_ZN_ok cpu.status hP cpu.register_y
  · exact updateZN_ZN_ok cpu.status hP ((cpu.register_x + 1) % 256)
  · exact updateZN_ZN_ok cpu.status hP ((cpu.register_y + 1) % 256)
  · exact updateZN_ZN_ok cpu.status hP ((cpu.register_x + 255) % 256)
  · exact updateZN_ZN_ok cpu.status hP ((cpu.register_y + 255) % 256)
  · intro mode addr v cpu1 haddr hv h
    unfold and at h
    rw [haddr] at h
    simp only [Option.bind_eq_bind, Option.some_bind, hv, Option.some.injEq] at h
    subst h
    exact updateZN_ZN_ok cpu.status hP (cpu.register_a &&& v)
  · intro mode addr v cpu1 haddr hv h
    unfold ora at h
    rw [haddr] at h
    simp only [Option.bind_eq_bind, Option.some_bind, hv, Option.some.injEq] at h
    subst h
    exact updateZN_ZN_ok cpu.status hP (cpu.register_a ||| v)
  · intro mode addr v cpu1 haddr hv h
    unfold eor at h
    rw [haddr] at h
    simp only [Option.bind_eq_bind, Option.some_bind, hv, Option.some.injEq] at h
    subst h
    exact updateZN_ZN_ok cpu.status hP (cpu.register_a ^^^ v)
  · intro mode addr v cpu1 haddr hv h
    unfold adc at h
    rw [haddr] at h
    simp only [Option.bind_eq_bind, Option.some_bind, hv, Option.some.injEq] at h
    subst h
    exact arith_status_ZN_ok cpu.status hP _ _ _
  · intro mode addr v cpu1 haddr hv h
    unfold sbc at h
    rw [haddr] at h
    simp only [Option.bind_eq_bind, Option.some_bind, hv, Option.some.injEq] at h
    subst h
    exact arith_status_ZN_ok cpu.status hP _ _ _
  · intro cpu1 h
    simp only [asl, Option.some.injEq] at h
    subst h
    exact shift_status_ZN_ok cpu.status hP _ _
  · intro mode addr v cpu1 hne haddr hv h
    have hb : (v <<< 1) &&& 0xFF < 256 := by
      rw [and_255_eq_mod]
      exact Nat.mod_lt _ (by norm_num)
    cases mode
    case Accumulator => exact absurd rfl hne
    all_goals (
      simp only [asl] at h
      rw [haddr] at h
      simp only [Option.bind_eq_bind, Option.some_bind, hv] at h
      exact mem_write_ZN_ok cpu hP addr _ _ cpu1 hb h)
  · intro cpu1 h
    simp only [lsr, Option.some.injEq] at h
    subst h
    exact shift_status_ZN_ok cpu.status hP _ _
  · intro mode addr v cpu1 hne haddr hv h
    have hb : v >>> 1 < 256 := shiftRight_one_lt (read_some_lt hv)
    cases mode
    case Accumulator => exact absurd rfl hne
    all_goals (
      simp only [lsr] at h
      rw [haddr] at h
      simp only [Option.bind_eq_bind, Option.some_bind, hv] at h
      exact mem_write_ZN_ok cpu hP addr _ _ cpu1 hb h)
  · intro cpu1 h
    simp only [rol, Option.some.injEq] at h
    subst h
    exact shift_status_ZN_ok cpu.status hP _ _
  · intro mode addr v cpu1 hne haddr hv h
    have hb : ((v <<< 1) &&& 0xFF) ||| get_carry_flag cpu.status < 256 := by
      refine or_lt_256 ?_ (lt_of_le_of_lt (get_carry_flag_le_one cpu.status) (by norm_num))
      rw [and_255_eq_mod]
      exact Nat.mod_lt _ (by norm_num)
    cases mode
    case Accumulator => exact absurd rfl hne
    all_goals (
      simp only [rol] at h
      rw [haddr] at h
      simp only [Option.bind_eq_bind, Option.some_bind, hv] at h
      exact mem_write_ZN_ok cpu hP addr _ _ cpu1 hb h)
  · intro cpu1 h
    simp only [ror, Option.some.injEq] at h
    subst h
    exact shift_status_ZN_ok cpu.status hP _ _
  · intro mode addr v cpu1 hne haddr hv h
    have hb : (v >>> 1) ||| (get_carry_flag cpu.status <<< 7) < 256 :=
      or_lt_256 (shiftRight_one_lt (read_some_lt hv)) (carry_shl7_lt cpu.status)
    cases mode
    case Accumulator => exact absurd rfl hne
    all_goals (
      simp only [ror] at h
      rw [haddr] at h
      simp only [Option.bind_eq_bind, Option.some_bind, hv] at h
      exact mem_write_ZN_ok cpu hP addr _ _ cpu1 hb h)
  · intro mode addr v cpu1 haddr hv h
    unfold inc at h
    rw [haddr] at h
    simp only [Option.bind_eq_bind, Option.some_bind, hv] at h
    exact mem_write_plain_ZN_ok cpu hP addr _ cpu1 (Nat.mod_lt _ (by norm_num)) h
  · intro mode addr v cpu1 haddr hv h
    unfold dec at h
    rw [haddr] at h
    simp only [Option.bind_eq_bind, Option.some_bind, hv] at h
    exact mem_write_plain_ZN_ok cpu hP addr _ cpu1 (Nat.mod_lt _ (by norm_num)) h

/-- C5: in every iteration of the execution loop (for a non-BRK opcode),
after the handler returns the loop advances PC by `len - 1` exactly when
the handler left PC equal to the post-opcode snapshot or the addressing
mode is Relative; and a taken BCC (carry clear) sets PC to the address
of the displacement byte plus the sign-extended displacement, modulo
2^16, before that advance. -/
theorem C5_run_step_pc (cpu : CPU) (code : Nat) (op : OpCode) (cpu1 : CPU)
    (hWF : cpu.WF)
    (hcode : cpu.memory.read cpu.program_counter = some code)
    (htab : opcodeTable code = some op)
    (hbrk : code ≠ 0)
    (hdisp : dispatch code op.mode
      { cpu with program_counter := (cpu.program_counter + 1) % 65536 } = some cpu1) :
    runStep cpu = some (.running
      (if (cpu.program_counter + 1) % 65536 = cpu1.program_counter ∨ op.mode = .Relative
       then { cpu1 with program_counter := (cpu1.program_counter + (op.len - 1)) % 65536 }
       else cpu1)) ∧
    (code = 0x90 → get_carry_flag cpu.status = 0 →
      ∃ b, cpu.memory.read ((cpu.program_counter + 1) % 65536) = some b ∧
        cpu1.program_counter
          = ((cpu.program_counter + 1) % 65536 + signExtend16 b) % 65536) := by
  constructor
  · unfold runStep
    rw [hcode]
    simp only [Option.bind_eq_bind, Option.some_bind, htab]
    rw [if_neg hbrk, hdisp]
    simp only [Option.some_bind]
    by_cases hcond :
      (cpu.program_counter + 1) % 65536 = cpu1.program_counter ∨ op.mode = .Relative
    · rw [if_pos hcond, if_pos hcond]
    · rw [if_neg hcond, if_neg hcond]
  · intro h90 hcar
    subst h90
    have hopm : op = ⟨.Relative, 2⟩ := by
      have h := htab
      rw [show opcodeTable 0x90 = some (⟨.Relative, 2⟩ : OpCode) from rfl] at h
      simp only [Option.some.injEq] at h
      exact h.symm
    subst hopm
    rw [show ∀ (m : AddressingMode) (c : CPU), dispatch 0x90 m c = bcc c m
      from fun m c => rfl] at hdisp
    unfold bcc at hdisp
    rw [if_pos (show get_carry_flag
      ({ cpu with program_counter := (cpu.program_counter + 1) % 65536 } : CPU).status = 0
      from hcar)] at hdisp
    simp only [get_operand_address, Option.bind_eq_bind, Option.some_bind] at hdisp
    cases hrel : cpu.memory.read ((cpu.program_counter + 1) % 65536) with
    | none =>
        rw [hrel] at hdisp
        simp at hdisp
    | some b =>
        rw [hrel] at hdisp
        simp only [Option.bind_eq_bind, Option.some_bind, Option.some.injEq] at hdisp
        subst hdisp
        exact ⟨b, rfl, rfl⟩

/-- Witness for C5: one `runStep` of `cpuC5` executes the taken BCC and
then applies the Relative-mode advance rule. -/
theorem C5_witness :
    runStep cpuC5 = some (.running
      (if (cpuC5.program_counter + 1) % 65536 = cpuC5b.program_counter ∨
          AddressingMode.Relative = AddressingMode.Relative
       then { cpuC5b with program_counter := (cpuC5b.program_counter + (2 - 1)) % 65536 }
       else cpuC5b)) ∧
    ((0x90 : Nat) = 0x90 → get_carry_flag cpuC5.status = 0 →
      ∃ b, cpuC5.memory.read ((cpuC5.program_counter + 1) % 65536) = some b ∧
        cpuC5b.program_counter
          = ((cpuC5.program_counter + 1) % 65536 + signExtend16 b) % 65536) :=
  C5_run_step_pc cpuC5 0x90 ⟨.Relative, 2⟩ cpuC5b (by decide) rfl rfl (by decide) rfl

/-- Witness for C7: LDA Immediate of the byte 5 on `cpuC7`. -/
theorem C7_witness : ZN_ok cpuC7'.status cpuC7'.register_a :=
  (C7_zn_invariant cpuC7 (by decide)).1 .Immediate 0 5 cpuC7' rfl rfl rfl

end NES
